import Mathlib

/-!
Verification of the generational key-rotation and credential-verification core
of the `benxu.dev` repository.

The credential flow (`server/src/blog/credentials/data.rs`) is embedded
directly from the source.  The `crypto` crate only exposes its `key_rotation`
and `algo` modules through `crypto/src/lib.rs`; their implementation files are
not part of the visible sources, so those parts are modelled from the spec and
marked as such on each definition.
-/

namespace Benxu

/-- Modelled from the spec: lifecycle status of a key generation
(`Active` for new signs, `Retired` usable only for verification).  The
implementation of the `crypto` crate's `key_rotation` module is missing from
the sources; only its declaration in `crypto/src/lib.rs` is visible. -/
inductive Status where
  | Active
  | Retired
deriving DecidableEq, Repr

/-- Modelled from the spec: a key generation, a unit of key material with a
monotonically increasing id and a lifecycle status. -/
structure Generation where
  id : Nat
  material : List Nat
  status : Status
deriving DecidableEq, Repr

/-- Modelled from the spec: a RotatingKeyStore holds an ordered sequence of
generations, most-recent-first, together with the retention bound `N`. -/
structure RotatingKeyStore where
  generations : List Generation
  retention : Nat
deriving DecidableEq, Repr

/-- Modelled from the spec: `new(initial_material, retention)` creates
generation id 0 as `Active`. -/
def RotatingKeyStore.new (material : List Nat) (retention : Nat) : RotatingKeyStore :=
  { generations := [{ id := 0, material := material, status := Status.Active }]
    retention := retention }

/-- Modelled from the spec: retiring a generation marks it `Retired`,
leaving id and material unchanged. -/
def Generation.retire (g : Generation) : Generation :=
  { g with status := Status.Retired }

/-- Modelled from the spec: the largest generation id currently held
(`previous_max` in the rotation step). -/
def RotatingKeyStore.prevMax (s : RotatingKeyStore) : Nat :=
  (s.generations.map (fun g => g.id)).foldr Nat.max 0

/-- Error taxonomy of the key stores (spec section 7). -/
inductive KeyRotationError where
  | GenerationNotFound
deriving DecidableEq, Repr

/-- Modelled from the spec: `rotate(new_material)` marks the previous `Active`
generation `Retired`, inserts a new generation with `id = previous_max + 1` as
`Active`, then evicts generations beyond the retention bound (oldest first,
so only the `retention + 1` most recent generations are kept).  Returns the
new id together with the updated store. -/
def RotatingKeyStore.rotate (s : RotatingKeyStore) (newMaterial : List Nat) :
    Nat × RotatingKeyStore :=
  let newId := s.prevMax + 1
  let gens := { id := newId, material := newMaterial, status := Status.Active }
      :: s.generations.map Generation.retire
  (newId, { s with generations := gens.take (s.retention + 1) })

/-- Modelled from the spec: `by_id` is a linear lookup that fails with
`GenerationNotFound` if the id was evicted or never issued. -/
def RotatingKeyStore.by_id (s : RotatingKeyStore) (id : Nat) :
    Except KeyRotationError (List Nat) :=
  match s.generations.find? (fun g => g.id == id) with
  | some g => Except.ok g.material
  | none => Except.error KeyRotationError.GenerationNotFound

/-- Modelled from the spec: `current()` returns the `Active` generation's
id and material. -/
def RotatingKeyStore.current (s : RotatingKeyStore) : Option (Nat × List Nat) :=
  (s.generations.find? (fun g => g.status == Status.Active)).map
    (fun g => (g.id, g.material))

/-- Iterated rotation: applies `rotate` once per element of `ms`. -/
def RotatingKeyStore.rotateAll (s : RotatingKeyStore) (ms : List (List Nat)) :
    RotatingKeyStore :=
  ms.foldl (fun st m => (st.rotate m).2) s

/-- Modelled from the spec: entropy-source failure of the external
key-material generator. -/
inductive EntropyError where
  | entropyFailure
deriving DecidableEq, Repr

/-- Modelled from the spec: the key length requested from the external
key-material generator (fixed per algorithm). -/
def keyLen : Nat := 32

/-- Modelled from the spec: a KeyRotator wraps a RotatingKeyStore plus an
external key-material generator `generate(len)`. -/
structure KeyRotator where
  store : RotatingKeyStore
  generate : Nat → Except EntropyError (List Nat)

/-- Modelled from the spec: `rotate_now()` draws fresh material and delegates
to the store's `rotate`; if material generation fails the rotation does not
proceed and the store is left unchanged. -/
def KeyRotator.rotate_now (r : KeyRotator) : Except EntropyError Nat × KeyRotator :=
  match r.generate keyLen with
  | Except.error e => (Except.error e, r)
  | Except.ok m =>
    let res := r.store.rotate m
    (Except.ok res.1, { r with store := res.2 })

/-- The ids held by a store that has seen `top` as its newest id and retains
`len` generations: `[top, top-1, ..., top-len+1]` (most-recent-first). -/
def descIds (top len : Nat) : List Nat :=
  (List.range len).map (fun i => top - i)

/-- Reachability invariant of a RotatingKeyStore after `k` rotations from a
freshly created store: the retained ids are the `min k retention + 1` most
recent ones in descending order, the head is `Active` and the rest `Retired`. -/
def goodState (s : RotatingKeyStore) (k : Nat) : Prop :=
  s.generations.map (fun g => g.id) = descIds k (min k s.retention + 1) ∧
  s.generations.map (fun g => g.status) =
    Status.Active :: List.replicate (min k s.retention) Status.Retired

/-- Modelled from the spec: default digest length used by
`VerificationInput::new_default_hash_len` in `data.rs` (the `crypto::algo`
implementation is missing from the sources). -/
def defaultHashLen : Nat := 32

/-- Modelled from the spec: a VerificationInput bundles plaintext, salt and
hash-length parameters; produced once and consumed by exactly one Algo
operation. -/
structure VerificationInput where
  plaintext : List Nat
  salt : List Nat
  hashLen : Nat
deriving DecidableEq, Repr

/-- Modelled from the spec: the constructor used by `data.rs`.  When no salt
is supplied, a fresh random salt is generated; the randomness is made explicit
as the `freshSalt` argument (the environment's entropy draw). -/
def VerificationInput.new_default_hash_len (plaintext : List Nat)
    (salt : Option (List Nat)) (freshSalt : List Nat) : VerificationInput :=
  { plaintext := plaintext, salt := salt.getD freshSalt, hashLen := defaultHashLen }

/-- Modelled from the spec: the keyed hash (argon2d) `sign` operation,
deterministic with respect to `(input, key)` and — per the spec's round-trip
property — injective in the plaintext for a fixed salt and key.  The digest is
an injective encoding of hash-length, key, salt and plaintext. -/
def PWAlgo.sign (input : VerificationInput) (key : List Nat) : List Nat :=
  input.hashLen :: key.length :: (key ++ input.salt.length :: (input.salt ++ input.plaintext))

/-- Modelled from the spec: `verify` recomputes the digest with the same
salt and parameters embedded in the input and compares against `expected`. -/
def PWAlgo.verify (input : VerificationInput) (key : List Nat)
    (expected : List Nat) : Bool :=
  PWAlgo.sign input key == expected

/-- Modelled from the spec (section 6): password re-verification selects the
key via `by_id(stored_generation_id)` before invoking Algo `verify`. -/
def verify_password (store : RotatingKeyStore)
    (plaintext stored_salt stored_hash : List Nat) (gid : Nat) :
    Except KeyRotationError Bool :=
  match store.by_id gid with
  | Except.error e => Except.error e
  | Except.ok key =>
      Except.ok (PWAlgo.verify
        { plaintext := plaintext, salt := stored_salt, hashLen := defaultHashLen }
        key stored_hash)

/-- Modelled from the spec: the fixed byte encoding (base64 in the source)
used when handing hash and salt to the persistence collaborator.  The spec
only requires the encoding to round-trip exactly, so any injective byte
encoding is faithful: each byte becomes its two base-64 digits. -/
def base64_encode (bytes : List Nat) : List Nat :=
  bytes.foldr (fun b acc => b / 64 :: b % 64 :: acc) []

/-- Embeds `blog_db` user rows, referenced only by shape. -/
structure User where
  id : Nat
deriving DecidableEq, Repr

/-- Embeds `diesel::result::Error`, the error type of the database
collaborator in `data.rs`. -/
inductive DieselError where
  | notFound
  | other (code : Nat)
deriving DecidableEq, Repr

/-- Embeds `credentials::pw::New` exactly as constructed in
`convert_and_save_with_credentials`: created_by, updated_by, user_id, hash
and salt — these are all of its fields. -/
structure PwNew where
  created_by : Nat
  updated_by : Nat
  user_id : Nat
  hash : List Nat
  salt : List Nat
deriving DecidableEq, Repr

/-- Embeds `credentials::pw::Changed` exactly as constructed in
`convert_and_update_with_credentials`. -/
structure PwChanged where
  updated_by : Nat
  hash : Option (List Nat)
  salt : Option (List Nat)
deriving DecidableEq, Repr

/-- The database collaborator consumed by `data.rs`, as query oracles. -/
structure DB where
  find_user_by_id : Nat → Except DieselError User
  count_pw_by_user : User → Except DieselError Nat
  create_pw_hash : PwNew → Except DieselError Unit
  update_pw_hash_for_user_id : Nat → PwChanged → Except DieselError Unit

/-- Embeds `auth::UnverifiedPermissionsCredential`: the requester's id plus
the one capability the flow consults.  The permission module is external to
the core; the spec reduces it to the predicate
`has_capability(requester, CanEditUserCredentials)`. -/
structure UnverifiedPermissionsCredential where
  user_id : Nat
  canEditUserCredentials : Bool
deriving DecidableEq, Repr

/-- Modelled from the spec: the `CanEditUserCredentials::verify` permission
predicate consumed by `verify_requester`. -/
def CanEditUserCredentials.verify (c : UnverifiedPermissionsCredential) : Bool :=
  c.canEditUserCredentials

/-- Embeds `Password` from `data.rs`: target user id and plaintext. -/
structure Password where
  user_id : Nat
  password : List Nat
deriving DecidableEq, Repr

/-- Embeds `PasswordWithBackingInfo` from `data.rs`. -/
structure PasswordWithBackingInfo where
  db : DB
  credentials : UnverifiedPermissionsCredential
  argon2d_key : List Nat
  pw : Password

/-- Instrumentation of the external calls the flow makes, used to state the
spec's "must not be invoked" properties: counters for the user lookup, the
duplicate-count query and the hash, and the records handed to the
persistence collaborator. -/
structure Trace where
  findUserCalls : Nat
  countCalls : Nat
  hashCalls : Nat
  createCalls : List PwNew
  updateCalls : List (Nat × PwChanged)
deriving DecidableEq, Repr

/-- The empty trace at the start of a flow. -/
def Trace.empty : Trace := ⟨0, 0, 0, [], []⟩

/-- Embeds `verify_requester`: the credentials belong to the password's owner
or carry the `CanEditUserCredentials` permission. -/
def PasswordWithBackingInfo.verify_requester (info : PasswordWithBackingInfo) : Bool :=
  info.credentials.user_id == info.pw.user_id ||
    CanEditUserCredentials.verify info.credentials

/-- Embeds `verify_duplicates`: looks up the user, counts that user's
password rows and compares against `target_count`; either query error is
propagated. -/
def PasswordWithBackingInfo.verify_duplicates (info : PasswordWithBackingInfo)
    (target_count : Nat) (t : Trace) : Except DieselError Bool × Trace :=
  match info.db.find_user_by_id info.pw.user_id with
  | Except.error e =>
      (Except.error e, { t with findUserCalls := t.findUserCalls + 1 })
  | Except.ok user =>
      match info.db.count_pw_by_user user with
      | Except.error e =>
          (Except.error e,
           { t with findUserCalls := t.findUserCalls + 1,
                    countCalls := t.countCalls + 1 })
      | Except.ok instances =>
          (Except.ok (instances == target_count),
           { t with findUserCalls := t.findUserCalls + 1,
                    countCalls := t.countCalls + 1 })

/-- Embeds `verify`: `Ok(self.verify_requester() && self.verify_duplicates(c)?)`
— the `&&` short-circuits, so a failed requester check performs no query. -/
def PasswordWithBackingInfo.verify (info : PasswordWithBackingInfo)
    (duplicate_count : Nat) (t : Trace) : Except DieselError Bool × Trace :=
  if info.verify_requester then info.verify_duplicates duplicate_count t
  else (Except.ok false, t)

/-- Embeds `hash`: builds a `VerificationInput` with a freshly generated salt
and signs it with the argon2d key, returning the salt and the digest. -/
def PasswordWithBackingInfo.hash (info : PasswordWithBackingInfo)
    (freshSalt : List Nat) (t : Trace) : (List Nat × List Nat) × Trace :=
  let msg := VerificationInput.new_default_hash_len info.pw.password none freshSalt
  ((msg.salt, PWAlgo.sign msg info.argon2d_key),
   { t with hashCalls := t.hashCalls + 1 })

/-- Embeds `convert_and_save_with_credentials`: verify with expected count 0,
hash, then hand a `credentials::pw::New` record to `create_pw_hash`; any
failure is collapsed to the unit error. -/
def PasswordWithBackingInfo.convert_and_save_with_credentials
    (info : PasswordWithBackingInfo) (freshSalt : List Nat) :
    Except Unit Unit × Trace :=
  match info.verify 0 Trace.empty with
  | (Except.error _, t) => (Except.error (), t)
  | (Except.ok false, t) => (Except.error (), t)
  | (Except.ok true, t) =>
    match info.hash freshSalt t with
    | ((generated_salt, pw_hash), t1) =>
      let record : PwNew :=
        { created_by := info.credentials.user_id
          updated_by := info.credentials.user_id
          user_id := info.pw.user_id
          hash := base64_encode pw_hash
          salt := base64_encode generated_salt }
      match info.db.create_pw_hash record with
      | Except.ok _ =>
          (Except.ok (), { t1 with createCalls := t1.createCalls ++ [record] })
      | Except.error _ =>
          (Except.error (), { t1 with createCalls := t1.createCalls ++ [record] })

/-- Embeds `convert_and_update_with_credentials`: verify with expected count
1, hash, then hand a `credentials::pw::Changed` record to
`update_pw_hash_for_user_id`; any failure is collapsed to the unit error. -/
def PasswordWithBackingInfo.convert_and_update_with_credentials
    (info : PasswordWithBackingInfo) (freshSalt : List Nat) :
    Except Unit Unit × Trace :=
  match info.verify 1 Trace.empty with
  | (Except.error _, t) => (Except.error (), t)
  | (Except.ok false, t) => (Except.error (), t)
  | (Except.ok true, t) =>
    match info.hash freshSalt t with
    | ((generated_salt, pw_hash), t1) =>
      let changed : PwChanged :=
        { updated_by := info.credentials.user_id
          hash := some (base64_encode pw_hash)
          salt := some (base64_encode generated_salt) }
      match info.db.update_pw_hash_for_user_id info.pw.user_id changed with
      | Except.ok _ =>
          (Except.ok (),
           { t1 with updateCalls := t1.updateCalls ++ [(info.pw.user_id, changed)] })
      | Except.error _ =>
          (Except.error (),
           { t1 with updateCalls := t1.updateCalls ++ [(info.pw.user_id, changed)] })

/-- The record `convert_and_save_with_credentials` hands to persistence on a
successful create. -/
def savedRecord (info : PasswordWithBackingInfo) (freshSalt : List Nat) : PwNew :=
  { created_by := info.credentials.user_id
    updated_by := info.credentials.user_id
    user_id := info.pw.user_id
    hash := base64_encode (PWAlgo.sign
      (VerificationInput.new_default_hash_len info.pw.password none freshSalt)
      info.argon2d_key)
    salt := base64_encode freshSalt }

/-- The record `convert_and_update_with_credentials` hands to persistence on
a successful update. -/
def updatedRecord (info : PasswordWithBackingInfo) (freshSalt : List Nat) : PwChanged :=
  { updated_by := info.credentials.user_id
    hash := some (base64_encode (PWAlgo.sign
      (VerificationInput.new_default_hash_len info.pw.password none freshSalt)
      info.argon2d_key))
    salt := some (base64_encode freshSalt) }

/-- Modelled from the spec: the spec's persist step is described as handing
`(salt, digest, generation_id)` over, with the generation id the one current
at hashing time.  The current generation id `g` is therefore part of the
flow's environment; the code's create flow never reads it, which this wrapper
makes explicit. -/
def convert_and_save_at_generation (g : Nat) (info : PasswordWithBackingInfo)
    (freshSalt : List Nat) : Except Unit Unit × Trace :=
  info.convert_and_save_with_credentials freshSalt

/-- A database oracle where the target user exists, has no password rows and
every write succeeds. -/
def dbOkEmpty : DB :=
  { find_user_by_id := fun uid => Except.ok { id := uid }
    count_pw_by_user := fun _ => Except.ok 0
    create_pw_hash := fun _ => Except.ok ()
    update_pw_hash_for_user_id := fun _ _ => Except.ok () }

/-- A database oracle where the target user exists and already has exactly
one password row. -/
def dbCount1 : DB :=
  { find_user_by_id := fun uid => Except.ok { id := uid }
    count_pw_by_user := fun _ => Except.ok 1
    create_pw_hash := fun _ => Except.ok ()
    update_pw_hash_for_user_id := fun _ _ => Except.ok () }

/-- A database oracle where the user lookup fails. -/
def dbNoUser : DB :=
  { find_user_by_id := fun _ => Except.error DieselError.notFound
    count_pw_by_user := fun _ => Except.ok 0
    create_pw_hash := fun _ => Except.ok ()
    update_pw_hash_for_user_id := fun _ _ => Except.ok () }

/-- A request by the password's owner against `dbOkEmpty`; the create flow
succeeds on this input. -/
def info0 : PasswordWithBackingInfo :=
  { db := dbOkEmpty
    credentials := { user_id := 7, canEditUserCredentials := false }
    argon2d_key := [1, 2]
    pw := { user_id := 7, password := [3, 4] } }

/-- A request by a stranger (id 1, no capability) against the owner's (id 7)
password. -/
def infoUnauth : PasswordWithBackingInfo :=
  { db := dbOkEmpty
    credentials := { user_id := 1, canEditUserCredentials := false }
    argon2d_key := [1, 2]
    pw := { user_id := 7, password := [3, 4] } }

/-- An owner request against a database that already holds one password row
for the user. -/
def infoDup : PasswordWithBackingInfo :=
  { db := dbCount1
    credentials := { user_id := 7, canEditUserCredentials := false }
    argon2d_key := [1, 2]
    pw := { user_id := 7, password := [3, 4] } }

/-- An owner request for which the user lookup fails. -/
def infoNoUser : PasswordWithBackingInfo :=
  { db := dbNoUser
    credentials := { user_id := 7, canEditUserCredentials := false }
    argon2d_key := [1, 2]
    pw := { user_id := 7, password := [3, 4] } }

/-- A rotator whose key-material generator always reports an entropy
failure. -/
def rotatorFail : KeyRotator :=
  { store := RotatingKeyStore.new [1] 2
    generate := fun _ => Except.error EntropyError.entropyFailure }

/-- A store holding only generation 0 with material `[1, 2]`. -/
def store1 : RotatingKeyStore := RotatingKeyStore.new [1, 2] 2

theorem descIds_length (top len : Nat) : (descIds top len).length = len := by
  simp [descIds]

theorem descIds_succ_top (top len : Nat) :
    descIds (top + 1) (len + 1) = (top + 1) :: descIds top len := by
  unfold descIds
  rw [List.range_succ_eq_map]
  simp [List.map_map, Function.comp, Nat.succ_sub_succ]

theorem descIds_take (top len n : Nat) :
    (descIds top len).take n = descIds top (min len n) := by
  unfold descIds
  rw [← List.map_take, List.take_range, Nat.min_comm]

theorem descIds_head (top len : Nat) (h : 0 < len) :
    (descIds top len).head? = some top := by
  cases len with
  | zero => omega
  | succ l =>
    unfold descIds
    rw [List.range_succ_eq_map]
    simp

theorem mem_descIds (j top len : Nat) :
    j ∈ descIds top len ↔ ∃ i, i < len ∧ j = top - i := by
  simp [descIds, eq_comm]

theorem foldr_max_ub (l : List Nat) (b : Nat) (h : ∀ x ∈ l, x ≤ b) :
    l.foldr Nat.max 0 ≤ b := by
  induction l with
  | nil => simp
  | cons a l ih =>
    simp only [List.foldr_cons]
    exact Nat.max_le.mpr ⟨h a (by simp), ih (fun x hx => h x (by simp [hx]))⟩

theorem le_foldr_max (l : List Nat) (x : Nat) (h : x ∈ l) :
    x ≤ l.foldr Nat.max 0 := by
  induction l with
  | nil => cases h
  | cons a l ih =>
    simp only [List.foldr_cons]
    rcases List.mem_cons.mp h with rfl | hmem
    · exact Nat.le_max_left _ _
    · exact Nat.le_trans (ih hmem) (Nat.le_max_right _ _)

theorem chainDesc (len : Nat) : ∀ top, len ≤ top + 1 →
    List.Chain' (fun a b => b < a) (descIds top len) := by
  induction len with
  | zero => intro top _; simp [descIds]
  | succ l ih =>
    intro top h
    cases top with
    | zero =>
      have hl : l = 0 := by omega
      subst hl
      simp [descIds]
    | succ t =>
      rw [descIds_succ_top]
      rcases Nat.eq_zero_or_pos l with hl | hl
      · subst hl; simp [descIds]
      · refine List.chain'_cons'.mpr ⟨?_, ih t (by omega)⟩
        intro b hb
        rw [descIds_head t l hl] at hb
        simp only [Option.mem_def, Option.some.injEq] at hb
        omega

theorem map_retire_id (l : List Generation) :
    (l.map Generation.retire).map (fun g => g.id) = l.map (fun g => g.id) := by
  induction l with
  | nil => rfl
  | cons g gs ih => simp [Generation.retire, ih]

theorem map_retire_status (l : List Generation) :
    (l.map Generation.retire).map (fun g => g.status) =
      List.replicate l.length Status.Retired := by
  induction l with
  | nil => rfl
  | cons g gs ih => simp [Generation.retire, ih, List.replicate_succ]

theorem filter_active_length (l : List Generation) :
    (l.filter (fun g => g.status == Status.Active)).length =
      ((l.map (fun g => g.status)).filter (fun st => st == Status.Active)).length := by
  induction l with
  | nil => rfl
  | cons g gs ih =>
    cases hst : (g.status == Status.Active) with
    | false => simp [List.filter_cons, hst, ih]
    | true => simp [List.filter_cons, hst, ih]

theorem replicate_retired_filter (n : Nat) :
    (List.replicate n Status.Retired).filter (fun st => st == Status.Active) = [] := by
  induction n with
  | zero => rfl
  | succ m ih =>
    have hb : (Status.Retired == Status.Active) = false := rfl
    simp [List.replicate_succ, List.filter_cons, hb, ih]

theorem prevMax_of_ids (s : RotatingKeyStore) (k len : Nat) (hlen : 0 < len)
    (hid : s.generations.map (fun g => g.id) = descIds k len) : s.prevMax = k := by
  unfold RotatingKeyStore.prevMax
  rw [hid]
  apply Nat.le_antisymm
  · apply foldr_max_ub
    intro x hx
    rcases (mem_descIds x k len).mp hx with ⟨i, _, rfl⟩
    omega
  · apply le_foldr_max
    exact (mem_descIds k k len).mpr ⟨0, hlen, by omega⟩

theorem rotate_retention (s : RotatingKeyStore) (m : List Nat) :
    (s.rotate m).2.retention = s.retention := rfl

theorem rotateAll_retention (ms : List (List Nat)) : ∀ s : RotatingKeyStore,
    (s.rotateAll ms).retention = s.retention := by
  induction ms with
  | nil => intro s; rfl
  | cons m ms ih =>
    intro s
    have hstep : s.rotateAll (m :: ms) = ((s.rotate m).2).rotateAll ms := rfl
    rw [hstep, ih]
    rfl

theorem new_good (m : List Nat) (N : Nat) :
    goodState (RotatingKeyStore.new m N) 0 := by
  constructor
  · show [0] = descIds 0 (min 0 N + 1)
    have h1 : min 0 N + 1 = 1 := by omega
    rw [h1]
    rfl
  · show [Status.Active] = Status.Active :: List.replicate (min 0 N) Status.Retired
    have h1 : min 0 N = 0 := by omega
    rw [h1]
    rfl

theorem rotate_good (s : RotatingKeyStore) (k : Nat) (m : List Nat)
    (h : goodState s k) : goodState (s.rotate m).2 (k + 1) := by
  obtain ⟨hid, hst⟩ := h
  have hmax : s.prevMax = k := prevMax_of_ids s k _ (by omega) hid
  have hlen : s.generations.length = min k s.retention + 1 := by
    have hc := congrArg List.length hid
    simpa [descIds_length] using hc
  constructor
  · show ((s.rotate m).2.generations).map (fun g => g.id) = _
    simp only [RotatingKeyStore.rotate, hmax, rotate_retention]
    rw [List.map_take, List.map_cons, map_retire_id, hid, ← descIds_succ_top,
      descIds_take]
    have harith : min (min k s.retention + 1 + 1) (s.retention + 1) =
        min (k + 1) s.retention + 1 := by omega
    rw [harith]
  · show ((s.rotate m).2.generations).map (fun g => g.status) = _
    simp only [RotatingKeyStore.rotate, hmax, rotate_retention]
    rw [List.map_take, List.map_cons, map_retire_status, hlen,
      List.take_succ_cons, List.take_replicate]
    have harith : min s.retention (min k s.retention + 1) =
        min (k + 1) s.retention := by omega
    rw [harith]

theorem rotateAll_good (ms : List (List Nat)) : ∀ (s : RotatingKeyStore) (k : Nat),
    goodState s k → goodState (s.rotateAll ms) (k + ms.length) := by
  induction ms with
  | nil => intro s k h; simpa [RotatingKeyStore.rotateAll] using h
  | cons m ms ih =>
    intro s k h
    have hstep : s.rotateAll (m :: ms) = ((s.rotate m).2).rotateAll ms := rfl
    rw [hstep]
    have h2 := ih ((s.rotate m).2) (k + 1) (rotate_good s k m h)
    have harith : k + 1 + ms.length = k + (m :: ms).length := by
      simp [List.length_cons]; omega
    rw [harith] at h2
    exact h2

theorem byId_ok_iff (s : RotatingKeyStore) (j : Nat) :
    (∃ mat, s.by_id j = Except.ok mat) ↔
      j ∈ s.generations.map (fun g => g.id) := by
  constructor
  · rintro ⟨mat, hmat⟩
    simp only [RotatingKeyStore.by_id] at hmat
    cases hfind : s.generations.find? (fun g => g.id == j) with
    | none => rw [hfind] at hmat; cases hmat
    | some g =>
      have hg : g.id = j := by simpa using List.find?_some hfind
      have hmem := List.mem_of_find?_eq_some hfind
      exact hg ▸ List.mem_map_of_mem (fun g => g.id) hmem
  · intro hj
    rcases List.mem_map.mp hj with ⟨g, hgmem, hgid⟩
    cases hfind : s.generations.find? (fun g => g.id == j) with
    | some g2 =>
      exact ⟨g2.material, by simp [RotatingKeyStore.by_id, hfind]⟩
    | none =>
      have hnone := List.find?_eq_none.mp hfind g hgmem
      simp [hgid] at hnone

theorem byId_err (s : RotatingKeyStore) (j : Nat)
    (h : j ∉ s.generations.map (fun g => g.id)) :
    s.by_id j = Except.error KeyRotationError.GenerationNotFound := by
  cases hfind : s.generations.find? (fun g => g.id == j) with
  | none => simp [RotatingKeyStore.by_id, hfind]
  | some g =>
    exfalso
    apply h
    have hg : g.id = j := by simpa using List.find?_some hfind
    exact hg ▸ List.mem_map_of_mem (fun g => g.id) (List.mem_of_find?_eq_some hfind)

theorem sign_inj (key salt p q : List Nat) (len : Nat)
    (h : PWAlgo.sign { plaintext := p, salt := salt, hashLen := len } key =
         PWAlgo.sign { plaintext := q, salt := salt, hashLen := len } key) :
    p = q := by
  simp only [PWAlgo.sign] at h
  injection h with h1 h
  injection h with h2 h
  have h3 := List.append_cancel_left h
  injection h3 with h4 h5
  exact List.append_cancel_left h5

theorem verify_trace (info : PasswordWithBackingInfo) (c : Nat) (t : Trace) :
    ((info.verify c t).2).hashCalls = t.hashCalls ∧
    ((info.verify c t).2).createCalls = t.createCalls ∧
    ((info.verify c t).2).updateCalls = t.updateCalls := by
  unfold PasswordWithBackingInfo.verify PasswordWithBackingInfo.verify_duplicates
  by_cases hr : info.verify_requester
  · simp only [hr, if_true]
    rcases hf : info.db.find_user_by_id info.pw.user_id with e | u
    · simp [hf]
    · rcases hc : info.db.count_pw_by_user u with e | n
      · simp [hf, hc]
      · simp [hf, hc]
  · simp [hr]

/-- C2: for every retention bound `N` and every sequence of `k` successful
`rotate()` calls on a RotatingKeyStore created with generation id 0, `by_id`
succeeds exactly for the `min (k+1) (N+1)` most recent generation ids — the
interval `[k - min k N, k]`, the new id after each rotation being the previous
maximum plus one — and fails with `GenerationNotFound` for every other id. -/
theorem rotating_store_by_id_window (m0 : List Nat) (N : Nat)
    (ms : List (List Nat)) (j : Nat) :
    ((∃ mat, ((RotatingKeyStore.new m0 N).rotateAll ms).by_id j = Except.ok mat) ↔
      (ms.length - min ms.length N ≤ j ∧ j ≤ ms.length)) ∧
    ((RotatingKeyStore.new m0 N).rotateAll ms).generations.length =
      min (ms.length + 1) (N + 1) ∧
    (¬(ms.length - min ms.length N ≤ j ∧ j ≤ ms.length) →
      ((RotatingKeyStore.new m0 N).rotateAll ms).by_id j =
        Except.error KeyRotationError.GenerationNotFound) := by
  have hret : ((RotatingKeyStore.new m0 N).rotateAll ms).retention = N :=
    rotateAll_retention ms (RotatingKeyStore.new m0 N)
  obtain ⟨hid, hst⟩ :=
    rotateAll_good ms (RotatingKeyStore.new m0 N) 0 (new_good m0 N)
  rw [hret] at hid
  rw [Nat.zero_add] at hid
  have hmem : j ∈ ((RotatingKeyStore.new m0 N).rotateAll ms).generations.map
      (fun g => g.id) ↔ (ms.length - min ms.length N ≤ j ∧ j ≤ ms.length) := by
    rw [hid, mem_descIds]
    constructor
    · rintro ⟨i, hi, rfl⟩
      omega
    · intro hb
      exact ⟨ms.length - j, by omega, by omega⟩
  refine ⟨?_, ?_, ?_⟩
  · rw [byId_ok_iff]
    exact hmem
  · have hc := congrArg List.length hid
    rw [List.length_map, descIds_length] at hc
    rw [hc]
    omega
  · intro hout
    exact byId_err _ j (fun hin => hout (hmem.mp hin))

/-- Witness for C2, the spec's own scenario: retention 2, three rotations
(ids 0, 1, 2, 3 of which 0 is evicted) — `by_id 0` fails with
`GenerationNotFound` while `by_id 1` succeeds. -/
theorem rotating_store_by_id_window_witness :
    ((RotatingKeyStore.new [0] 2).rotateAll [[1], [2], [3]]).by_id 0 =
      Except.error KeyRotationError.GenerationNotFound ∧
    (∃ mat, ((RotatingKeyStore.new [0] 2).rotateAll [[1], [2], [3]]).by_id 1 =
      Except.ok mat) := by
  refine ⟨(rotating_store_by_id_window [0] 2 [[1], [2], [3]] 0).2.2 (by decide), ?_⟩
  exact (rotating_store_by_id_window [0] 2 [[1], [2], [3]] 1).1.mpr (by decide)

/-- C3: after every sequence of `rotate()` calls, exactly one retained
generation has status `Active`, and the retained generation ids are strictly
increasing in creation order (the list is held most-recent-first, so its
reverse is creation order). -/
theorem rotating_store_single_active_strict_ids (m0 : List Nat) (N : Nat)
    (ms : List (List Nat)) :
    ((((RotatingKeyStore.new m0 N).rotateAll ms).generations.filter
        (fun g => g.status == Status.Active)).length = 1) ∧
    List.Chain' (fun a b => a.id < b.id)
      (((RotatingKeyStore.new m0 N).rotateAll ms).generations.reverse) := by
  have hret : ((RotatingKeyStore.new m0 N).rotateAll ms).retention = N :=
    rotateAll_retention ms (RotatingKeyStore.new m0 N)
  obtain ⟨hid, hst⟩ :=
    rotateAll_good ms (RotatingKeyStore.new m0 N) 0 (new_good m0 N)
  rw [hret] at hid hst
  rw [Nat.zero_add] at hid hst
  constructor
  · rw [filter_active_length, hst]
    have ha : (Status.Active == Status.Active) = true := rfl
    simp [List.filter_cons, ha, replicate_retired_filter]
  · rw [List.chain'_reverse]
    have hC : List.Chain' (fun a b => b < a)
        (descIds ms.length (min ms.length N + 1)) :=
      chainDesc (min ms.length N + 1) ms.length (by omega)
    rw [← hid] at hC
    have hmapped := (List.chain'_map (fun g : Generation => g.id)).mp hC
    exact hmapped

/-- C8: if the key-material generator reports an entropy failure, `rotate_now`
returns that error and the underlying RotatingKeyStore is left exactly as it
was — no generation is inserted, retired or evicted. -/
theorem rotate_now_entropy_failure_leaves_store (r : KeyRotator) (e : EntropyError)
    (h : r.generate keyLen = Except.error e) :
    r.rotate_now = (Except.error e, r) ∧ r.rotate_now.2.store = r.store := by
  unfold KeyRotator.rotate_now
  rw [h]
  exact ⟨rfl, rfl⟩

/-- Witness for C8: a rotator whose generator always fails leaves its store
untouched. -/
theorem rotate_now_entropy_failure_leaves_store_witness :
    rotatorFail.rotate_now = (Except.error EntropyError.entropyFailure, rotatorFail) :=
  (rotate_now_entropy_failure_leaves_store rotatorFail EntropyError.entropyFailure rfl).1

/-- C4: hashing a plaintext under generation `gid` (the `hash` step of
`data.rs`, with the generation's key) produces a salt and digest such that
verifying the same plaintext against the stored `(salt, hash, gid)` returns
true, while verifying any different plaintext returns false. -/
theorem password_hash_verify_round_trip (info : PasswordWithBackingInfo)
    (store : RotatingKeyStore) (gid : Nat) (p2 freshSalt : List Nat) (t : Trace)
    (hkey : store.by_id gid = Except.ok info.argon2d_key)
    (hne : p2 ≠ info.pw.password) :
    (info.hash freshSalt t).1 =
      (freshSalt, PWAlgo.sign
        { plaintext := info.pw.password, salt := freshSalt, hashLen := defaultHashLen }
        info.argon2d_key) ∧
    verify_password store info.pw.password freshSalt (info.hash freshSalt t).1.2 gid =
      Except.ok true ∧
    verify_password store p2 freshSalt (info.hash freshSalt t).1.2 gid =
      Except.ok false := by
  refine ⟨?_, ?_, ?_⟩
  · simp [PasswordWithBackingInfo.hash, VerificationInput.new_default_hash_len]
  · simp [PasswordWithBackingInfo.hash, VerificationInput.new_default_hash_len,
      verify_password, hkey, PWAlgo.verify]
  · simp only [PasswordWithBackingInfo.hash, VerificationInput.new_default_hash_len,
      verify_password, hkey, PWAlgo.verify, Option.getD_none]
    have hsign : PWAlgo.sign
        { plaintext := p2, salt := freshSalt, hashLen := defaultHashLen }
        info.argon2d_key ≠
      PWAlgo.sign
        { plaintext := info.pw.password, salt := freshSalt, hashLen := defaultHashLen }
        info.argon2d_key := by
      intro hEq
      exact hne (sign_inj info.argon2d_key freshSalt p2 info.pw.password
        defaultHashLen hEq)
    simp [hsign]

/-- Witness for C4: the owner's request `info0` hashed under generation 0 of
`store1` verifies, and a different plaintext is rejected. -/
theorem password_hash_verify_round_trip_witness :
    verify_password store1 [3, 4] [9] ((info0.hash [9] Trace.empty).1.2) 0 =
      Except.ok true ∧
    verify_password store1 [9, 9] [9] ((info0.hash [9] Trace.empty).1.2) 0 =
      Except.ok false := by
  have h := password_hash_verify_round_trip info0 store1 0 [9, 9] [9] Trace.empty
    rfl (by decide)
  exact ⟨h.2.1, h.2.2⟩

/-- C5: a requester who is neither the password's owner nor a holder of the
`CanEditUserCredentials` capability makes both the create and the update flow
fail, and the hash function is never invoked. -/
theorem unauthorized_request_fails_without_hashing (info : PasswordWithBackingInfo)
    (freshSalt : List Nat)
    (howner : info.credentials.user_id ≠ info.pw.user_id)
    (hcap : info.credentials.canEditUserCredentials = false) :
    ((info.convert_and_save_with_credentials freshSalt).1 = Except.error () ∧
     (info.convert_and_save_with_credentials freshSalt).2.hashCalls = 0) ∧
    ((info.convert_and_update_with_credentials freshSalt).1 = Except.error () ∧
     (info.convert_and_update_with_credentials freshSalt).2.hashCalls = 0) := by
  have hreq : info.verify_requester = false := by
    simp [PasswordWithBackingInfo.verify_requester, CanEditUserCredentials.verify,
      hcap, howner]
  refine ⟨⟨?_, ?_⟩, ⟨?_, ?_⟩⟩ <;>
    simp [PasswordWithBackingInfo.convert_and_save_with_credentials,
      PasswordWithBackingInfo.convert_and_update_with_credentials,
      PasswordWithBackingInfo.verify, hreq, Trace.empty]

/-- Witness for C5: the stranger's request `infoUnauth` fails and performs no
hashing. -/
theorem unauthorized_request_fails_without_hashing_witness :
    (infoUnauth.convert_and_save_with_credentials [9]).1 = Except.error () ∧
    (infoUnauth.convert_and_save_with_credentials [9]).2.hashCalls = 0 :=
  (unauthorized_request_fails_without_hashing infoUnauth [9] (by decide) rfl).1

/-- C6: for an authorized request, a duplicate count other than 0 makes the
create flow fail, and a count other than 1 makes the update flow fail; in
particular a user with one existing password record cannot create another. -/
theorem duplicate_count_mismatch_fails (info : PasswordWithBackingInfo)
    (freshSalt : List Nat) (u : User) (n : Nat)
    (hreq : info.verify_requester = true)
    (hfind : info.db.find_user_by_id info.pw.user_id = Except.ok u)
    (hcount : info.db.count_pw_by_user u = Except.ok n) :
    (n ≠ 0 → (info.convert_and_save_with_credentials freshSalt).1 = Except.error ()) ∧
    (n ≠ 1 → (info.convert_and_update_with_credentials freshSalt).1 = Except.error ()) := by
  constructor
  · intro hn
    have hb : (n == 0) = false := by simpa using hn
    simp [PasswordWithBackingInfo.convert_and_save_with_credentials,
      PasswordWithBackingInfo.verify, PasswordWithBackingInfo.verify_duplicates,
      hreq, hfind, hcount, hb]
  · intro hn
    have hb : (n == 1) = false := by simpa using hn
    simp [PasswordWithBackingInfo.convert_and_update_with_credentials,
      PasswordWithBackingInfo.verify, PasswordWithBackingInfo.verify_duplicates,
      hreq, hfind, hcount, hb]

/-- Witness for C6, the spec's own scenario: a user with one existing
password record attempts a create — the flow fails. -/
theorem duplicate_count_mismatch_fails_witness :
    (infoDup.convert_and_save_with_credentials [9]).1 = Except.error () :=
  (duplicate_count_mismatch_fails infoDup [9] { id := 7 } 1 rfl rfl rfl).1 (by decide)

/-- C9: when the lookup of the target user id fails, both flows return an
error before any hashing or persistence write occurs, even for an authorized
requester. -/
theorem user_lookup_failure_aborts_flow (info : PasswordWithBackingInfo)
    (freshSalt : List Nat) (e : DieselError)
    (hreq : info.verify_requester = true)
    (hfind : info.db.find_user_by_id info.pw.user_id = Except.error e) :
    ((info.convert_and_save_with_credentials freshSalt).1 = Except.error () ∧
     (info.convert_and_save_with_credentials freshSalt).2.hashCalls = 0 ∧
     (info.convert_and_save_with_credentials freshSalt).2.createCalls = []) ∧
    ((info.convert_and_update_with_credentials freshSalt).1 = Except.error () ∧
     (info.convert_and_update_with_credentials freshSalt).2.hashCalls = 0 ∧
     (info.convert_and_update_with_credentials freshSalt).2.updateCalls = []) := by
  refine ⟨⟨?_, ?_, ?_⟩, ⟨?_, ?_, ?_⟩⟩ <;>
    simp [PasswordWithBackingInfo.convert_and_save_with_credentials,
      PasswordWithBackingInfo.convert_and_update_with_credentials,
      PasswordWithBackingInfo.verify, PasswordWithBackingInfo.verify_duplicates,
      hreq, hfind, Trace.empty]

/-- Witness for C9: the owner's request against `dbNoUser` fails without
hashing. -/
theorem user_lookup_failure_aborts_flow_witness :
    (infoNoUser.convert_and_save_with_credentials [9]).1 = Except.error () ∧
    (infoNoUser.convert_and_save_with_credentials [9]).2.hashCalls = 0 := by
  have h := user_lookup_failure_aborts_flow infoNoUser [9] DieselError.notFound rfl rfl
  exact ⟨h.1.1, h.1.2.1⟩

/-- C10: when the requester check fails, the combined verification
short-circuits — neither the user lookup nor the duplicate-count query is
ever executed, in the create flow or in the update flow. -/
theorem unauthorized_request_skips_count_query (info : PasswordWithBackingInfo)
    (freshSalt : List Nat) (hreq : info.verify_requester = false) :
    ((info.convert_and_save_with_credentials freshSalt).2.countCalls = 0 ∧
     (info.convert_and_save_with_credentials freshSalt).2.findUserCalls = 0) ∧
    ((info.convert_and_update_with_credentials freshSalt).2.countCalls = 0 ∧
     (info.convert_and_update_with_credentials freshSalt).2.findUserCalls = 0) := by
  refine ⟨⟨?_, ?_⟩, ⟨?_, ?_⟩⟩ <;>
    simp [PasswordWithBackingInfo.convert_and_save_with_credentials,
      PasswordWithBackingInfo.convert_and_update_with_credentials,
      PasswordWithBackingInfo.verify, hreq, Trace.empty]

/-- Witness for C10: the stranger's request performs no database query. -/
theorem unauthorized_request_skips_count_query_witness :
    (infoUnauth.convert_and_save_with_credentials [9]).2.countCalls = 0 ∧
    (infoUnauth.convert_and_save_with_credentials [9]).2.findUserCalls = 0 :=
  (unauthorized_request_skips_count_query infoUnauth [9] rfl).1

/-- Counterexample for C1: the record handed to the persistence collaborator
does NOT contain the generation id of the key generation current at hashing
time.  The record produced by a successful create is identical whatever the
current generation is (here 3 versus 7 on the same concrete input), so no
reading of the record can recover the generation id — `credentials::pw::New`
has only the fields created_by, updated_by, user_id, hash and salt. -/
theorem credential_record_has_no_generation_id :
    ¬ ∃ getGen : PwNew → Nat, ∀ g : Nat,
        ∀ r ∈ (convert_and_save_at_generation g info0 [9]).2.createCalls,
          getGen r = g := by
  rintro ⟨f, hf⟩
  have hmem : savedRecord info0 [9] ∈
      (convert_and_save_at_generation 3 info0 [9]).2.createCalls := by decide
  have h3 := hf 3 (savedRecord info0 [9]) hmem
  have h7 := hf 7 (savedRecord info0 [9]) (by exact hmem)
  omega

/-- C1 as amended: on every successful create or update, the single record
handed to the persistence collaborator carries the fresh salt and the digest
(byte-encoded), tagged with the requester's id as created_by/updated_by —
but no generation id, since the flow hashes with a single fixed argon2d key
and `credentials::pw::New` / `credentials::pw::Changed` have no generation
field. -/
theorem credential_persist_record_shape (info : PasswordWithBackingInfo)
    (freshSalt : List Nat) :
    ((info.convert_and_save_with_credentials freshSalt).1 = Except.ok () →
      (info.convert_and_save_with_credentials freshSalt).2.createCalls =
        [savedRecord info freshSalt]) ∧
    ((info.convert_and_update_with_credentials freshSalt).1 = Except.ok () →
      (info.convert_and_update_with_credentials freshSalt).2.updateCalls =
        [(info.pw.user_id, updatedRecord info freshSalt)]) := by
  constructor
  · intro hok
    unfold PasswordWithBackingInfo.convert_and_save_with_credentials at hok ⊢
    rcases hv : info.verify 0 Trace.empty with ⟨res, t⟩
    have htc : t.createCalls = [] := by
      have h := (verify_trace info 0 Trace.empty).2.1
      rw [hv] at h
      simpa [Trace.empty] using h
    rw [hv] at hok
    rcases res with e | b
    · simp at hok
    · rcases b with _ | _
      · simp at hok
      · rcases hc : info.db.create_pw_hash (savedRecord info freshSalt) with e | u
        · exfalso
          simp [PasswordWithBackingInfo.hash, savedRecord,
            VerificationInput.new_default_hash_len] at hok hc
          rw [hc] at hok
          simp at hok
        · simp [PasswordWithBackingInfo.hash, savedRecord,
            VerificationInput.new_default_hash_len] at hc ⊢
          rw [hc]
          simp [htc, savedRecord, VerificationInput.new_default_hash_len]
  · intro hok
    unfold PasswordWithBackingInfo.convert_and_update_with_credentials at hok ⊢
    rcases hv : info.verify 1 Trace.empty with ⟨res, t⟩
    have htc : t.updateCalls = [] := by
      have h := (verify_trace info 1 Trace.empty).2.2
      rw [hv] at h
      simpa [Trace.empty] using h
    rw [hv] at hok
    rcases res with e | b
    · simp at hok
    · rcases b with _ | _
      · simp at hok
      · rcases hc : info.db.update_pw_hash_for_user_id info.pw.user_id
            (updatedRecord info freshSalt) with e | u
        · exfalso
          simp [PasswordWithBackingInfo.hash, updatedRecord,
            VerificationInput.new_default_hash_len] at hok hc
          rw [hc] at hok
          simp at hok
        · simp [PasswordWithBackingInfo.hash, updatedRecord,
            VerificationInput.new_default_hash_len] at hc ⊢
          rw [hc]
          simp [htc, updatedRecord, VerificationInput.new_default_hash_len]

/-- Witness for the amended C1: the owner's successful create hands over
exactly the expected salt/digest record tagged with the requester's id. -/
theorem credential_persist_record_shape_witness :
    (info0.convert_and_save_with_credentials [9]).2.createCalls =
      [savedRecord info0 [9]] :=
  (credential_persist_record_shape info0 [9]).1 rfl

/-- Counterexample for C7: an InvariantViolation-mode failure (duplicate
count broken, `infoDup`) is NOT distinguishable by the caller from an
Unauthorized-mode failure (`infoUnauth`): both runs of the create flow return
the very same unit error. -/
theorem unauthorized_and_invariant_errors_identical :
    (infoUnauth.convert_and_save_with_credentials [9]).1 = Except.error () ∧
    (infoDup.convert_and_save_with_credentials [9]).1 = Except.error () ∧
    (infoUnauth.convert_and_save_with_credentials [9]).1 =
      (infoDup.convert_and_save_with_credentials [9]).1 :=
  ⟨rfl, rfl, rfl⟩

/-- C7 as amended: every authorization failure and every duplicate-invariant
failure of the create flow is surfaced to the caller as an error result,
never silently as success — but the flow's error type is the unit type, so
the two failure modes collapse to the same error value and are not
distinguishable by the caller. -/
theorem failures_surface_as_unit_error (info1 info2 : PasswordWithBackingInfo)
    (s1 s2 : List Nat) (u : User) (n : Nat)
    (h1 : info1.verify_requester = false)
    (h2r : info2.verify_requester = true)
    (h2f : info2.db.find_user_by_id info2.pw.user_id = Except.ok u)
    (h2c : info2.db.count_pw_by_user u = Except.ok n)
    (hn : n ≠ 0) :
    (info1.convert_and_save_with_credentials s1).1 = Except.error () ∧
    (info2.convert_and_save_with_credentials s2).1 = Except.error () ∧
    (info1.convert_and_save_with_credentials s1).1 =
      (info2.convert_and_save_with_credentials s2).1 := by
  have hb : (n == 0) = false := by simpa using hn
  have e1 : (info1.convert_and_save_with_credentials s1).1 = Except.error () := by
    simp [PasswordWithBackingInfo.convert_and_save_with_credentials,
      PasswordWithBackingInfo.verify, h1]
  have e2 : (info2.convert_and_save_with_credentials s2).1 = Except.error () := by
    simp [PasswordWithBackingInfo.convert_and_save_with_credentials,
      PasswordWithBackingInfo.verify, PasswordWithBackingInfo.verify_duplicates,
      h2r, h2f, h2c, hb]
  exact ⟨e1, e2, by rw [e1, e2]⟩

/-- Witness for the amended C7: both concrete failure modes surface as the
same unit error. -/
theorem failures_surface_as_unit_error_witness :
    (infoUnauth.convert_and_save_with_credentials [9]).1 =
      (infoDup.convert_and_save_with_credentials [9]).1 :=
  (failures_surface_as_unit_error infoUnauth infoDup [9] [9] { id := 7 } 1
    rfl rfl rfl rfl (by decide)).2.2

end Benxu
